import Mathlib

/-!
Shallow embedding of the booking/inventory core of the travel booking
application (src/models.py and src/views.py).  Seat counts are Python
integers, modelled as ℤ; prices and timestamps are modelled as ℚ
(the Decimal/float arithmetic of the source is taken exactly); timestamps
are absolute times in seconds, and `now` is always passed explicitly in
place of Python's timezone.now().  Database persistence (each method's
final self.save()) is the identity on the in-memory state modelled here,
except for Booking.save, whose field mutations are embedded explicitly.
-/

/-- Status of a travel option (models.py, TravelOption.STATUS_CHOICES). -/
inductive TravelStatus
  | ACTIVE
  | CANCELLED
  | FULL
deriving DecidableEq, Repr

/-- Status of a booking (models.py, Booking.STATUS_CHOICES). -/
inductive BookingStatus
  | PENDING
  | CONFIRMED
  | CANCELLED
  | REFUNDED
deriving DecidableEq, Repr

/-- The fields of models.py TravelOption that the inventory core reads or
writes.  departure_time is an absolute timestamp in seconds. -/
structure TravelOption where
  price : ℚ
  total_seats : ℤ
  available_seats : ℤ
  status : TravelStatus
  departure_time : ℚ
deriving DecidableEq, Repr

/-- models.py TravelOption.is_available: available_seats > 0 and status
is ACTIVE. -/
def TravelOption.is_available (t : TravelOption) : Bool :=
  decide (0 < t.available_seats) && decide (t.status = TravelStatus.ACTIVE)

/-- models.py TravelOption.update_availability: unconditionally subtracts
seats_booked from available_seats, then sets status to FULL when the new
available_seats equals 0 exactly. -/
def TravelOption.update_availability (t : TravelOption) (seats_booked : ℤ) : TravelOption :=
  let a := t.available_seats - seats_booked
  if a = 0 then { t with available_seats := a, status := TravelStatus.FULL }
  else { t with available_seats := a }

/-- models.py TravelOption.cancel_seats: adds seats_cancelled to
available_seats; if status was FULL and the new count is positive, reverts
status to ACTIVE. -/
def TravelOption.cancel_seats (t : TravelOption) (seats_cancelled : ℤ) : TravelOption :=
  let a := t.available_seats + seats_cancelled
  if t.status = TravelStatus.FULL ∧ 0 < a then
    { t with available_seats := a, status := TravelStatus.ACTIVE }
  else { t with available_seats := a }

/-- The TravelOption data-model invariant of the spec (section 3):
available_seats lies in 0..total_seats and, off the CANCELLED branch,
status is FULL exactly when available_seats is 0. -/
def TravelOption.inv (t : TravelOption) : Prop :=
  0 ≤ t.available_seats ∧ t.available_seats ≤ t.total_seats ∧
    (t.status ≠ TravelStatus.CANCELLED →
      (t.status = TravelStatus.FULL ↔ t.available_seats = 0))

instance (t : TravelOption) : Decidable t.inv := by
  unfold TravelOption.inv
  infer_instance

/-- The fields of models.py Booking that the booking lifecycle reads or
writes.  pk is none before the first save (Django assigns the primary key
on insert); an absent booking_reference is the empty string (Python
falsiness of the '' default); cancelled_at is a timestamp in seconds. -/
structure Booking where
  pk : Option Nat
  booking_reference : String
  number_of_seats : ℤ
  total_price : ℚ
  status : BookingStatus
  cancelled_at : Option ℚ
  cancellation_reason : String
deriving DecidableEq, Repr

/-- models.py Booking.save: generates the reference when it is still
empty, computes total_price = travel price × seat count only when the
booking has no primary key yet (a new booking), and lets the database
assign the primary key on insert.  genRef stands for the reference string
built from the travel type, the timestamp and the random suffix; newPk
stands for the key the database assigns. -/
def Booking.save (b : Booking) (t : TravelOption) (genRef : String) (newPk : Nat) : Booking :=
  let b1 := if b.booking_reference = "" then { b with booking_reference := genRef } else b
  let b2 :=
    if b1.pk = none then { b1 with total_price := t.price * (b1.number_of_seats : ℚ) }
    else b1
  { b2 with pk := some (b2.pk.getD newPk) }

/-- models.py Booking.cancel: from CONFIRMED, marks the booking CANCELLED,
records cancelled_at := now and the reason, releases the seats through
TravelOption.cancel_seats, saves, and returns True; from any other status
returns False and changes nothing.  The result is the returned Bool, the
booking after the call and the travel option after the call. -/
def Booking.cancel (b : Booking) (t : TravelOption) (now : ℚ) (reason genRef : String)
    (newPk : Nat) : Bool × Booking × TravelOption :=
  if b.status = BookingStatus.CONFIRMED then
    let t1 := t.cancel_seats b.number_of_seats
    let b1 := { b with status := BookingStatus.CANCELLED,
                       cancelled_at := some now,
                       cancellation_reason := reason }
    (true, b1.save t1 genRef newPk, t1)
  else (false, b, t)

/-- models.py Booking.confirm: from PENDING transitions to CONFIRMED and
saves, returning True; otherwise returns False and changes nothing. -/
def Booking.confirm (b : Booking) (t : TravelOption) (genRef : String) (newPk : Nat) :
    Bool × Booking :=
  if b.status = BookingStatus.PENDING then
    (true, Booking.save { b with status := BookingStatus.CONFIRMED } t genRef newPk)
  else (false, b)

/-- models.py Booking.is_cancellable: status is CONFIRMED and strictly
more than 7200 seconds (2 hours) remain before departure. -/
def Booking.is_cancellable (b : Booking) (t : TravelOption) (now : ℚ) : Bool :=
  if b.status ≠ BookingStatus.CONFIRMED then false
  else decide (7200 < t.departure_time - now)

/-- models.py Booking.get_refund_amount: 0 when not cancellable, else
tiered by hours until departure: 90% of total_price above 24 hours, 50%
above 6 hours, 25% otherwise.  The float factors 0.9, 0.5, 0.25 of the
source are taken exactly as rationals. -/
def Booking.get_refund_amount (b : Booking) (t : TravelOption) (now : ℚ) : ℚ :=
  if ¬ b.is_cancellable t now then 0
  else
    let hours_until := (t.departure_time - now) / 3600
    if 24 < hours_until then b.total_price * (9 / 10)
    else if 6 < hours_until then b.total_price * (1 / 2)
    else b.total_price * (1 / 4)

/-- The spec's InventoryError (section 7). -/
inductive InventoryError
  | Unavailable
deriving DecidableEq, Repr

/-- views.py book_travel_view, the inventory path (the is_available guard,
the available_seats re-check against the requested seat count, and the
update_availability call) for a form-valid request.  Form-level
validation (seat bounds, passenger list, contact data) is
presentation-layer and outside the modelled core; both rejection branches
of the view surface as the unavailability error. -/
def book_travel_reserve (t : TravelOption) (n : ℤ) : Except InventoryError TravelOption :=
  if ¬ t.is_available then Except.error InventoryError.Unavailable
  else if t.available_seats < n then Except.error InventoryError.Unavailable
  else Except.ok (t.update_availability n)

/-- views.py cancel_booking_view: rejects the request when is_cancellable
fails, leaving everything unchanged, and otherwise delegates to
Booking.cancel with the posted reason. -/
def cancel_booking_view (b : Booking) (t : TravelOption) (now : ℚ) (reason genRef : String)
    (newPk : Nat) : Bool × Booking × TravelOption :=
  if ¬ b.is_cancellable t now then (false, b, t)
  else b.cancel t now reason genRef newPk

section SaveLemmas

/-- Booking.save never changes the status field. -/
lemma Booking.save_status (b : Booking) (t : TravelOption) (genRef : String) (newPk : Nat) :
    (b.save t genRef newPk).status = b.status := by
  simp only [Booking.save]
  split_ifs <;> rfl

/-- Booking.save never changes the cancelled_at field. -/
lemma Booking.save_cancelled_at (b : Booking) (t : TravelOption) (genRef : String)
    (newPk : Nat) : (b.save t genRef newPk).cancelled_at = b.cancelled_at := by
  simp only [Booking.save]
  split_ifs <;> rfl

/-- Booking.save never changes the cancellation_reason field. -/
lemma Booking.save_cancellation_reason (b : Booking) (t : TravelOption) (genRef : String)
    (newPk : Nat) : (b.save t genRef newPk).cancellation_reason = b.cancellation_reason := by
  simp only [Booking.save]
  split_ifs <;> rfl

/-- Booking.save never changes the number_of_seats field. -/
lemma Booking.save_number_of_seats (b : Booking) (t : TravelOption) (genRef : String)
    (newPk : Nat) : (b.save t genRef newPk).number_of_seats = b.number_of_seats := by
  simp only [Booking.save]
  split_ifs <;> rfl

/-- On a booking that already has a primary key, Booking.save leaves
total_price unchanged. -/
lemma Booking.save_total_price_of_pk_some (b : Booking) (t : TravelOption) (genRef : String)
    (newPk : Nat) (h : b.pk ≠ none) :
    (b.save t genRef newPk).total_price = b.total_price := by
  simp only [Booking.save]
  split_ifs <;> rfl

/-- On a booking with no primary key yet, Booking.save computes
total_price as travel price times seat count. -/
lemma Booking.save_total_price_of_pk_none (b : Booking) (t : TravelOption) (genRef : String)
    (newPk : Nat) (h : b.pk = none) :
    (b.save t genRef newPk).total_price = t.price * (b.number_of_seats : ℚ) := by
  simp only [Booking.save]
  split_ifs <;> rfl

/-- Booking.save always leaves the booking with a primary key. -/
lemma Booking.save_pk_isSome (b : Booking) (t : TravelOption) (genRef : String)
    (newPk : Nat) : (b.save t genRef newPk).pk ≠ none := by
  simp only [Booking.save]
  split_ifs <;> simp

end SaveLemmas

section InventoryLemmas

/-- update_availability subtracts exactly seats_booked. -/
lemma TravelOption.update_availability_available_seats (t : TravelOption) (n : ℤ) :
    (t.update_availability n).available_seats = t.available_seats - n := by
  simp only [TravelOption.update_availability]
  split_ifs <;> rfl

/-- The status after update_availability: FULL when the new count is 0,
unchanged otherwise. -/
lemma TravelOption.update_availability_status (t : TravelOption) (n : ℤ) :
    (t.update_availability n).status =
      if t.available_seats - n = 0 then TravelStatus.FULL else t.status := by
  simp only [TravelOption.update_availability]
  split_ifs with h <;> simp [h]

/-- update_availability leaves total_seats unchanged. -/
lemma TravelOption.update_availability_total_seats (t : TravelOption) (n : ℤ) :
    (t.update_availability n).total_seats = t.total_seats := by
  simp only [TravelOption.update_availability]
  split_ifs <;> rfl

/-- cancel_seats adds exactly seats_cancelled. -/
lemma TravelOption.cancel_seats_available_seats (t : TravelOption) (n : ℤ) :
    (t.cancel_seats n).available_seats = t.available_seats + n := by
  simp only [TravelOption.cancel_seats]
  split_ifs <;> rfl

/-- The status after cancel_seats: back to ACTIVE when it was FULL and the
new count is positive, unchanged otherwise. -/
lemma TravelOption.cancel_seats_status (t : TravelOption) (n : ℤ) :
    (t.cancel_seats n).status =
      if t.status = TravelStatus.FULL ∧ 0 < t.available_seats + n then TravelStatus.ACTIVE
      else t.status := by
  simp only [TravelOption.cancel_seats]
  split_ifs with h <;> simp [h]

/-- cancel_seats leaves total_seats unchanged. -/
lemma TravelOption.cancel_seats_total_seats (t : TravelOption) (n : ℤ) :
    (t.cancel_seats n).total_seats = t.total_seats := by
  simp only [TravelOption.cancel_seats]
  split_ifs <;> rfl

end InventoryLemmas

/-- C10: TravelOption.update_availability is total and unguarded: for every
integer n it decrements available_seats by exactly n, with no check on n or
on the status and with no error, sets status to FULL exactly when the new
count is 0 and leaves it unchanged otherwise (in particular on an overshoot
past 0), and drives available_seats negative whenever n exceeds it. -/
theorem update_availability_unguarded (t : TravelOption) (n : ℤ) :
    (t.update_availability n).available_seats = t.available_seats - n ∧
    (t.update_availability n).status =
      (if t.available_seats - n = 0 then TravelStatus.FULL else t.status) ∧
    (t.available_seats < n → (t.update_availability n).available_seats < 0) := by
  refine ⟨t.update_availability_available_seats n, t.update_availability_status n, fun h => ?_⟩
  rw [t.update_availability_available_seats n]
  omega

/-- C10 witness: at 3 available seats, booking 5 drives the count to -2
without the CANCELLED status changing. -/
theorem update_availability_unguarded_witness :
    (TravelOption.update_availability
        { price := 10, total_seats := 5, available_seats := 3,
          status := TravelStatus.CANCELLED, departure_time := 0 } 5).available_seats < 0 :=
  (update_availability_unguarded
      { price := 10, total_seats := 5, available_seats := 3,
        status := TravelStatus.CANCELLED, departure_time := 0 } 5).2.2 (by decide)

/-- C7: cancelling a booking whose status is not CONFIRMED (in particular
an already-CANCELLED one) returns False and leaves the booking and the
referenced travel option completely unchanged: no seat release happens. -/
theorem cancel_non_confirmed_noop (b : Booking) (t : TravelOption) (now : ℚ)
    (reason genRef : String) (newPk : Nat) (h : b.status ≠ BookingStatus.CONFIRMED) :
    b.cancel t now reason genRef newPk = (false, b, t) := by
  unfold Booking.cancel
  simp [h]

/-- C7 witness: cancelling an already-CANCELLED booking changes nothing. -/
theorem cancel_non_confirmed_noop_witness :
    Booking.cancel
        { pk := some 1, booking_reference := "FL202501011200ABCD", number_of_seats := 2,
          total_price := 100, status := BookingStatus.CANCELLED, cancelled_at := some 0,
          cancellation_reason := "earlier" }
        { price := 50, total_seats := 10, available_seats := 6,
          status := TravelStatus.ACTIVE, departure_time := 100000 } 7 "again" "ref" 9 =
      (false,
        { pk := some 1, booking_reference := "FL202501011200ABCD", number_of_seats := 2,
          total_price := 100, status := BookingStatus.CANCELLED, cancelled_at := some 0,
          cancellation_reason := "earlier" },
        { price := 50, total_seats := 10, available_seats := 6,
          status := TravelStatus.ACTIVE, departure_time := 100000 }) :=
  cancel_non_confirmed_noop _ _ 7 "again" "ref" 9 (by decide)

/-- C4: on an ACTIVE option with 1 ≤ n ≤ available_seats, reserving n
seats (update_availability) and then releasing n seats (cancel_seats)
restores the travel option exactly, both count and status. -/
theorem reserve_release_round_trip (t : TravelOption) (n : ℤ)
    (hst : t.status = TravelStatus.ACTIVE) (h1 : 1 ≤ n) (h2 : n ≤ t.available_seats) :
    (t.update_availability n).cancel_seats n = t := by
  obtain ⟨p, ts, a, st, dep⟩ := t
  have h2a : n ≤ a := h2
  have hsta : st = TravelStatus.ACTIVE := hst
  clear h2 hst
  subst hsta
  by_cases hz : a - n = 0
  · have hpos : (0 : ℤ) < n := by omega
    simp [TravelOption.update_availability, TravelOption.cancel_seats, hz, hpos,
      TravelOption.mk.injEq]
    omega
  · simp [TravelOption.update_availability, TravelOption.cancel_seats, hz,
      TravelOption.mk.injEq]

/-- C4 witness: reserving and then releasing 2 seats on an ACTIVE option
with 2 available restores it exactly (passing through FULL). -/
theorem reserve_release_round_trip_witness :
    (TravelOption.cancel_seats
        (TravelOption.update_availability
          { price := 75, total_seats := 2, available_seats := 2,
            status := TravelStatus.ACTIVE, departure_time := 0 } 2) 2) =
      { price := 75, total_seats := 2, available_seats := 2,
        status := TravelStatus.ACTIVE, departure_time := 0 } :=
  reserve_release_round_trip
    { price := 75, total_seats := 2, available_seats := 2,
      status := TravelStatus.ACTIVE, departure_time := 0 } 2 rfl (by decide) (by decide)

/-- C5 counterexample: cancel_seats does not cap available_seats at
total_seats: on an ACTIVE option with 7 of 8 seats available, releasing 4
yields 11 available seats, above the total of 8. -/
theorem cancel_seats_uncapped_cex :
    (TravelOption.cancel_seats
        { price := 50, total_seats := 8, available_seats := 7,
          status := TravelStatus.ACTIVE, departure_time := 0 } 4).available_seats = 11 ∧
    (TravelOption.cancel_seats
        { price := 50, total_seats := 8, available_seats := 7,
          status := TravelStatus.ACTIVE, departure_time := 0 } 4).total_seats = 8 := by
  constructor <;> decide

/-- C5 amended: for every n ≥ 1, cancel_seats increments available_seats by
exactly n with no cap at total_seats, and if status was FULL and the
resulting count is positive, status reverts to ACTIVE. -/
theorem cancel_seats_spec_amended (t : TravelOption) (n : ℤ) (_hn : 1 ≤ n) :
    (t.cancel_seats n).available_seats = t.available_seats + n ∧
    (t.status = TravelStatus.FULL → 0 < t.available_seats + n →
      (t.cancel_seats n).status = TravelStatus.ACTIVE) := by
  refine ⟨t.cancel_seats_available_seats n, fun hf hpos => ?_⟩
  rw [t.cancel_seats_status n, if_pos ⟨hf, hpos⟩]

/-- C5 amended witness: releasing 2 seats on a FULL option with 0
available makes 2 available and reverts status to ACTIVE. -/
theorem cancel_seats_spec_amended_witness :
    (TravelOption.cancel_seats
        { price := 10, total_seats := 6, available_seats := 0,
          status := TravelStatus.FULL, departure_time := 0 } 2).available_seats = 0 + 2 ∧
    (TravelOption.cancel_seats
        { price := 10, total_seats := 6, available_seats := 0,
          status := TravelStatus.FULL, departure_time := 0 } 2).status =
      TravelStatus.ACTIVE := by
  have h := cancel_seats_spec_amended
    { price := 10, total_seats := 6, available_seats := 0,
      status := TravelStatus.FULL, departure_time := 0 } 2 (by decide)
  exact ⟨h.1, h.2 rfl (by decide)⟩

/-- C3 counterexample: the raw seat operations do not preserve the
invariant.  update_availability turns a CANCELLED option (3 of 10 seats)
into FULL when the decrement lands on 0, and cancel_seats pushes an ACTIVE
option (10 of 10 seats) to 12 available seats, above its total of 10. -/
theorem invariant_not_preserved_cex :
    (TravelOption.update_availability
        { price := 100, total_seats := 10, available_seats := 3,
          status := TravelStatus.CANCELLED, departure_time := 0 } 3).status =
      TravelStatus.FULL ∧
    (TravelOption.cancel_seats
        { price := 100, total_seats := 10, available_seats := 10,
          status := TravelStatus.ACTIVE, departure_time := 0 } 2).available_seats = 12 ∧
    (TravelOption.cancel_seats
        { price := 100, total_seats := 10, available_seats := 10,
          status := TravelStatus.ACTIVE, departure_time := 0 } 2).total_seats = 10 := by
  refine ⟨?_, ?_, ?_⟩ <;> decide

/-- C3 amended: under the guarded call discipline — update_availability
only on an ACTIVE option with 1 ≤ n ≤ available_seats, cancel_seats only
with 1 ≤ n and available_seats + n ≤ total_seats — both operations
preserve the invariant (0 ≤ available_seats ≤ total_seats, and off the
CANCELLED branch status is FULL exactly when available_seats is 0), and
neither turns a CANCELLED status into anything else. -/
theorem inv_preserved_guarded (t : TravelOption) (n : ℤ) (hinv : t.inv) :
    (t.status = TravelStatus.ACTIVE → 1 ≤ n → n ≤ t.available_seats →
      (t.update_availability n).inv ∧
      (t.update_availability n).status ≠ TravelStatus.CANCELLED) ∧
    (1 ≤ n → t.available_seats + n ≤ t.total_seats →
      (t.cancel_seats n).inv ∧
      (t.status = TravelStatus.CANCELLED →
        (t.cancel_seats n).status = TravelStatus.CANCELLED)) := by
  obtain ⟨ha0, hat, hiff⟩ := hinv
  constructor
  · intro hst hn hna
    unfold TravelOption.inv
    rw [t.update_availability_available_seats n, t.update_availability_status n,
      t.update_availability_total_seats n]
    split_ifs with hz <;> simp [hst] <;> omega
  · intro hn hcap
    unfold TravelOption.inv
    rw [t.cancel_seats_available_seats n, t.cancel_seats_status n,
      t.cancel_seats_total_seats n]
    rcases hs : t.status with _ | _ | _ <;> split_ifs with hc <;> simp_all <;> omega

/-- C3 amended witness: a guarded reservation of 1 seat on an ACTIVE
2-of-2 option keeps the invariant and does not produce CANCELLED. -/
theorem inv_preserved_guarded_witness :
    (TravelOption.update_availability
        { price := 20, total_seats := 2, available_seats := 2,
          status := TravelStatus.ACTIVE, departure_time := 0 } 1).inv ∧
    (TravelOption.update_availability
        { price := 20, total_seats := 2, available_seats := 2,
          status := TravelStatus.ACTIVE, departure_time := 0 } 1).status ≠
      TravelStatus.CANCELLED :=
  (inv_preserved_guarded
      { price := 20, total_seats := 2, available_seats := 2,
        status := TravelStatus.ACTIVE, departure_time := 0 } 1 (by decide)).1
    rfl (by decide) (by decide)

/-- C1: for every seat count n ≥ 1, the reservation operation (the
book_travel_view gating composed with update_availability) fails with
InventoryError.Unavailable when the status is not ACTIVE or n exceeds
available_seats, and otherwise decrements available_seats by exactly n,
never below 0, leaving status FULL exactly when the new count is 0: a
reservation attempt never silently overbooks. -/
theorem book_travel_reserve_spec (t : TravelOption) (n : ℤ) (hn : 1 ≤ n) :
    ((t.status ≠ TravelStatus.ACTIVE ∨ t.available_seats < n) →
      book_travel_reserve t n = Except.error InventoryError.Unavailable) ∧
    (t.status = TravelStatus.ACTIVE → n ≤ t.available_seats →
      book_travel_reserve t n = Except.ok (t.update_availability n) ∧
      (t.update_availability n).available_seats = t.available_seats - n ∧
      0 ≤ (t.update_availability n).available_seats ∧
      ((t.update_availability n).status = TravelStatus.FULL ↔
        (t.update_availability n).available_seats = 0)) := by
  constructor
  · intro hfail
    by_cases hav : t.is_available = true
    · have hav2 := hav
      rw [TravelOption.is_available, Bool.and_eq_true, decide_eq_true_eq,
        decide_eq_true_eq] at hav2
      have hlt : t.available_seats < n := by
        rcases hfail with hs | hlt
        · exact absurd hav2.2 hs
        · exact hlt
      simp only [book_travel_reserve]
      rw [if_neg (not_not_intro hav), if_pos hlt]
    · simp only [book_travel_reserve]
      rw [if_pos hav]
  · intro hA hle
    have hav : t.is_available = true := by
      rw [TravelOption.is_available, Bool.and_eq_true, decide_eq_true_eq,
        decide_eq_true_eq]
      exact ⟨by omega, hA⟩
    refine ⟨?_, t.update_availability_available_seats n, ?_, ?_⟩
    · simp only [book_travel_reserve]
      rw [if_neg (not_not_intro hav), if_neg (by omega)]
    · rw [t.update_availability_available_seats n]
      omega
    · rw [t.update_availability_status n, t.update_availability_available_seats n]
      by_cases hz : t.available_seats - n = 0
      · simp [hz]
      · simp [hz, hA]

/-- C1 witness: on an ACTIVE option with 3 of 5 seats, reserving 3
succeeds and decrements through update_availability. -/
theorem book_travel_reserve_spec_witness :
    book_travel_reserve
        { price := 10, total_seats := 5, available_seats := 3,
          status := TravelStatus.ACTIVE, departure_time := 0 } 3 =
      Except.ok (TravelOption.update_availability
        { price := 10, total_seats := 5, available_seats := 3,
          status := TravelStatus.ACTIVE, departure_time := 0 } 3) :=
  ((book_travel_reserve_spec
      { price := 10, total_seats := 5, available_seats := 3,
        status := TravelStatus.ACTIVE, departure_time := 0 } 3 (by decide)).2
    rfl (by decide)).1

/-- is_cancellable holds exactly on a CONFIRMED booking strictly more than
7200 seconds before departure. -/
lemma Booking.is_cancellable_iff (b : Booking) (t : TravelOption) (now : ℚ) :
    b.is_cancellable t now = true ↔
      (b.status = BookingStatus.CONFIRMED ∧ 7200 < t.departure_time - now) := by
  unfold Booking.is_cancellable
  split_ifs with h
  · simp [h]
  · simp [not_not.mp h]

/-- C2: get_refund_amount returns 0 when the booking is not cancellable
(status not CONFIRMED, or at most 2 hours until departure), 90% of
total_price when more than 24 hours remain, 50% in (6, 24] hours, and 25%
in (2, 6] hours. -/
theorem get_refund_amount_tiers (b : Booking) (t : TravelOption) (now : ℚ) :
    (b.status ≠ BookingStatus.CONFIRMED → b.get_refund_amount t now = 0) ∧
    (b.status = BookingStatus.CONFIRMED →
      ((t.departure_time - now) / 3600 ≤ 2 → b.get_refund_amount t now = 0) ∧
      (24 < (t.departure_time - now) / 3600 →
        b.get_refund_amount t now = b.total_price * (9 / 10)) ∧
      (6 < (t.departure_time - now) / 3600 → (t.departure_time - now) / 3600 ≤ 24 →
        b.get_refund_amount t now = b.total_price * (1 / 2)) ∧
      (2 < (t.departure_time - now) / 3600 → (t.departure_time - now) / 3600 ≤ 6 →
        b.get_refund_amount t now = b.total_price * (1 / 4))) := by
  constructor
  · intro hs
    unfold Booking.get_refund_amount
    rw [if_pos]
    intro hc
    exact hs ((b.is_cancellable_iff t now).mp hc).1
  · intro hs
    refine ⟨?_, ?_, ?_, ?_⟩
    · intro h2
      have hsec : ¬ (7200 < t.departure_time - now) := by
        rw [not_lt]
        have := (div_le_iff₀ (by norm_num : (0 : ℚ) < 3600)).mp h2
        linarith
      unfold Booking.get_refund_amount
      rw [if_pos]
      intro hc
      exact hsec ((b.is_cancellable_iff t now).mp hc).2
    · intro h24
      have hsec : 7200 < t.departure_time - now := by
        have := (lt_div_iff₀ (by norm_num : (0 : ℚ) < 3600)).mp h24
        linarith
      have hc := (b.is_cancellable_iff t now).mpr ⟨hs, hsec⟩
      unfold Booking.get_refund_amount
      rw [if_neg (not_not_intro hc)]
      dsimp only
      rw [if_pos h24]
    · intro h6 h24
      have hsec : 7200 < t.departure_time - now := by
        have := (lt_div_iff₀ (by norm_num : (0 : ℚ) < 3600)).mp h6
        linarith
      have hc := (b.is_cancellable_iff t now).mpr ⟨hs, hsec⟩
      unfold Booking.get_refund_amount
      rw [if_neg (not_not_intro hc)]
      dsimp only
      rw [if_neg (not_lt.mpr h24), if_pos h6]
    · intro h2 h6
      have hsec : 7200 < t.departure_time - now := by
        have := (lt_div_iff₀ (by norm_num : (0 : ℚ) < 3600)).mp h2
        linarith
      have hc := (b.is_cancellable_iff t now).mpr ⟨hs, hsec⟩
      unfold Booking.get_refund_amount
      rw [if_neg (not_not_intro hc)]
      dsimp only
      rw [if_neg (not_lt.mpr (le_trans h6 (by norm_num))), if_neg (not_lt.mpr h6)]

/-- C2 witness: a CONFIRMED booking of total price 1000, 30 hours (108000
seconds) before departure, is refunded 900. -/
theorem get_refund_amount_tiers_witness :
    Booking.get_refund_amount
        { pk := some 1, booking_reference := "TR202501011200WXYZ", number_of_seats := 2,
          total_price := 1000, status := BookingStatus.CONFIRMED, cancelled_at := none,
          cancellation_reason := "" }
        { price := 500, total_seats := 10, available_seats := 4,
          status := TravelStatus.ACTIVE, departure_time := 108000 } 0 = 900 :=
  (((get_refund_amount_tiers
        { pk := some 1, booking_reference := "TR202501011200WXYZ", number_of_seats := 2,
          total_price := 1000, status := BookingStatus.CONFIRMED, cancelled_at := none,
          cancellation_reason := "" }
        { price := 500, total_seats := 10, available_seats := 4,
          status := TravelStatus.ACTIVE, departure_time := 108000 } 0).2 rfl).2.1
    (by norm_num)).trans (by norm_num)

/-- C6: the cancellation operation (cancel_booking_view gating composed
with Booking.cancel) succeeds exactly on a CONFIRMED booking strictly more
than 7200 seconds (2 hours) before departure; within the cutoff nothing
changes, and a successful cancellation marks the booking CANCELLED,
records the time and the reason, and releases number_of_seats back to the
travel option. -/
theorem cancel_booking_view_spec (b : Booking) (t : TravelOption) (now : ℚ)
    (reason genRef : String) (newPk : Nat) :
    ((cancel_booking_view b t now reason genRef newPk).1 = true ↔
      (b.status = BookingStatus.CONFIRMED ∧ 7200 < t.departure_time - now)) ∧
    (t.departure_time - now ≤ 7200 →
      cancel_booking_view b t now reason genRef newPk = (false, b, t)) ∧
    (b.status = BookingStatus.CONFIRMED → 7200 < t.departure_time - now →
      (cancel_booking_view b t now reason genRef newPk).2.1.status =
          BookingStatus.CANCELLED ∧
      (cancel_booking_view b t now reason genRef newPk).2.1.cancelled_at = some now ∧
      (cancel_booking_view b t now reason genRef newPk).2.1.cancellation_reason =
          reason ∧
      (cancel_booking_view b t now reason genRef newPk).2.2 =
          t.cancel_seats b.number_of_seats ∧
      (cancel_booking_view b t now reason genRef newPk).2.2.available_seats =
          t.available_seats + b.number_of_seats) := by
  refine ⟨?_, ?_, ?_⟩
  · unfold cancel_booking_view
    by_cases hc : b.is_cancellable t now = true
    · rw [if_neg (not_not_intro hc)]
      obtain ⟨hstat, hsec⟩ := (b.is_cancellable_iff t now).mp hc
      unfold Booking.cancel
      rw [if_pos hstat]
      simp [hstat, hsec]
    · rw [if_pos hc]
      simp only [Prod.fst]
      constructor
      · intro hfalse
        exact absurd hfalse (by simp)
      · intro hx
        exact absurd ((b.is_cancellable_iff t now).mpr hx) hc
  · intro hle
    have hnc : ¬ b.is_cancellable t now = true := fun h =>
      absurd ((b.is_cancellable_iff t now).mp h).2 (not_lt.mpr hle)
    unfold cancel_booking_view
    rw [if_pos hnc]
  · intro hstat hsec
    have hc : b.is_cancellable t now = true := (b.is_cancellable_iff t now).mpr ⟨hstat, hsec⟩
    unfold cancel_booking_view
    rw [if_neg (not_not_intro hc)]
    unfold Booking.cancel
    rw [if_pos hstat]
    dsimp only
    refine ⟨?_, ?_, ?_, rfl, ?_⟩
    · rw [Booking.save_status]
    · rw [Booking.save_cancelled_at]
    · rw [Booking.save_cancellation_reason]
    · rw [TravelOption.cancel_seats_available_seats]

/-- C6 witness: a CONFIRMED booking of 2 seats, 100000 seconds before
departure, is cancelled with the seats released. -/
theorem cancel_booking_view_spec_witness :
    (cancel_booking_view
        { pk := some 3, booking_reference := "BS202501011200PQRS", number_of_seats := 2,
          total_price := 100, status := BookingStatus.CONFIRMED, cancelled_at := none,
          cancellation_reason := "" }
        { price := 50, total_seats := 10, available_seats := 6,
          status := TravelStatus.ACTIVE, departure_time := 100000 } 0 "change of plans"
        "ref" 9).2.1.status = BookingStatus.CANCELLED :=
  ((cancel_booking_view_spec
      { pk := some 3, booking_reference := "BS202501011200PQRS", number_of_seats := 2,
        total_price := 100, status := BookingStatus.CONFIRMED, cancelled_at := none,
        cancellation_reason := "" }
      { price := 50, total_seats := 10, available_seats := 6,
        status := TravelStatus.ACTIVE, departure_time := 100000 } 0 "change of plans"
      "ref" 9).2.2 rfl (by norm_num)).1

/-- Closed form of get_refund_amount on a CONFIRMED booking, evaluated h
hours before departure. -/
lemma refund_at_hours (b : Booking) (t : TravelOption) (h : ℚ)
    (hs : b.status = BookingStatus.CONFIRMED) :
    b.get_refund_amount t (t.departure_time - 3600 * h) =
      if h ≤ 2 then 0
      else if 24 < h then b.total_price * (9 / 10)
      else if 6 < h then b.total_price * (1 / 2)
      else b.total_price * (1 / 4) := by
  have hsub : t.departure_time - (t.departure_time - 3600 * h) = 3600 * h := by ring
  have hdiv : (3600 * h : ℚ) / 3600 = h := by field_simp
  by_cases h2 : h ≤ 2
  · have hsec : ¬ (7200 < 3600 * h) := by
      rw [not_lt]
      linarith
    simp [Booking.get_refund_amount, Booking.is_cancellable, hs, hsub, h2, hsec]
  · have hsec : 7200 < 3600 * h := by
      rw [not_le] at h2
      linarith
    simp [Booking.get_refund_amount, Booking.is_cancellable, hs, hsub, hdiv, h2, hsec]

/-- C8: for a fixed CONFIRMED booking with non-negative total_price,
get_refund_amount as a function of the hours h until departure is
monotonically non-decreasing, equal to 0 for h at or below the 2-hour
cutoff, 25% of total_price on (2, 6], 50% on (6, 24], and 90% above 24, so
the only breakpoints are at h = 24, h = 6 and the cutoff at h = 2. -/
theorem refund_monotone_breakpoints (b : Booking) (t : TravelOption)
    (hs : b.status = BookingStatus.CONFIRMED) (hp : 0 ≤ b.total_price) :
    (∀ h1 h2 : ℚ, h1 ≤ h2 →
      b.get_refund_amount t (t.departure_time - 3600 * h1) ≤
        b.get_refund_amount t (t.departure_time - 3600 * h2)) ∧
    (∀ h : ℚ, h ≤ 2 → b.get_refund_amount t (t.departure_time - 3600 * h) = 0) ∧
    (∀ h : ℚ, 2 < h → h ≤ 6 →
      b.get_refund_amount t (t.departure_time - 3600 * h) = b.total_price * (1 / 4)) ∧
    (∀ h : ℚ, 6 < h → h ≤ 24 →
      b.get_refund_amount t (t.departure_time - 3600 * h) = b.total_price * (1 / 2)) ∧
    (∀ h : ℚ, 24 < h →
      b.get_refund_amount t (t.departure_time - 3600 * h) = b.total_price * (9 / 10)) := by
  refine ⟨?_, ?_, ?_, ?_, ?_⟩
  · intro h1 h2 hle
    rw [refund_at_hours b t h1 hs, refund_at_hours b t h2 hs]
    split_ifs <;> linarith
  · intro h hcut
    rw [refund_at_hours b t h hs, if_pos hcut]
  · intro h hlo hhi
    rw [refund_at_hours b t h hs, if_neg (not_le.mpr hlo),
      if_neg (not_lt.mpr (by linarith)), if_neg (not_lt.mpr hhi)]
  · intro h hlo hhi
    rw [refund_at_hours b t h hs, if_neg (not_le.mpr (by linarith)),
      if_neg (not_lt.mpr hhi), if_pos hlo]
  · intro h hlo
    rw [refund_at_hours b t h hs, if_neg (not_le.mpr (by linarith)), if_pos hlo]

/-- C8 witness: for a CONFIRMED booking of total price 1000, the refund 5
hours out (250) is at most the refund 30 hours out (900). -/
theorem refund_monotone_breakpoints_witness :
    Booking.get_refund_amount
        { pk := some 2, booking_reference := "FL202501011200AAAA", number_of_seats := 1,
          total_price := 1000, status := BookingStatus.CONFIRMED, cancelled_at := none,
          cancellation_reason := "" }
        { price := 1000, total_seats := 10, available_seats := 4,
          status := TravelStatus.ACTIVE, departure_time := 200000 }
        (200000 - 3600 * 5) ≤
      Booking.get_refund_amount
        { pk := some 2, booking_reference := "FL202501011200AAAA", number_of_seats := 1,
          total_price := 1000, status := BookingStatus.CONFIRMED, cancelled_at := none,
          cancellation_reason := "" }
        { price := 1000, total_seats := 10, available_seats := 4,
          status := TravelStatus.ACTIVE, departure_time := 200000 }
        (200000 - 3600 * 30) :=
  (refund_monotone_breakpoints
      { pk := some 2, booking_reference := "FL202501011200AAAA", number_of_seats := 1,
        total_price := 1000, status := BookingStatus.CONFIRMED, cancelled_at := none,
        cancellation_reason := "" }
      { price := 1000, total_seats := 10, available_seats := 4,
        status := TravelStatus.ACTIVE, departure_time := 200000 } rfl (by norm_num)).1
    5 30 (by norm_num)

/-- C9: total_price is computed as travel price × number_of_seats exactly
at the first save (no primary key yet), the first save leaves the booking
with a primary key, and every later save, cancel or confirm call on a
saved booking leaves total_price unchanged. -/
theorem total_price_set_once (b : Booking) (t : TravelOption) (genRef : String)
    (newPk : Nat) :
    (b.pk = none →
      (b.save t genRef newPk).total_price = t.price * (b.number_of_seats : ℚ)) ∧
    ((b.save t genRef newPk).pk ≠ none) ∧
    (b.pk ≠ none → (b.save t genRef newPk).total_price = b.total_price) ∧
    (b.pk ≠ none → ∀ (now : ℚ) (reason : String),
      ((b.cancel t now reason genRef newPk).2.1).total_price = b.total_price) ∧
    (b.pk ≠ none → ((b.confirm t genRef newPk).2).total_price = b.total_price) := by
  refine ⟨fun h => Booking.save_total_price_of_pk_none b t genRef newPk h,
    Booking.save_pk_isSome b t genRef newPk,
    fun h => Booking.save_total_price_of_pk_some b t genRef newPk h,
    fun h now reason => ?_, fun h => ?_⟩
  · unfold Booking.cancel
    split_ifs with hc
    · exact Booking.save_total_price_of_pk_some _ _ _ _ h
    · rfl
  · unfold Booking.confirm
    split_ifs with hc
    · exact Booking.save_total_price_of_pk_some _ _ _ _ h
    · rfl

/-- C9 witness: first save of a 2-seat booking at price 50 sets
total_price to 100. -/
theorem total_price_set_once_witness :
    (Booking.save
        { pk := none, booking_reference := "", number_of_seats := 2,
          total_price := 0, status := BookingStatus.PENDING, cancelled_at := none,
          cancellation_reason := "" }
        { price := 50, total_seats := 10, available_seats := 10,
          status := TravelStatus.ACTIVE, departure_time := 0 } "FL202501011200ZZZZ"
        7).total_price = 100 :=
  ((total_price_set_once
      { pk := none, booking_reference := "", number_of_seats := 2,
        total_price := 0, status := BookingStatus.PENDING, cancelled_at := none,
        cancellation_reason := "" }
      { price := 50, total_seats := 10, available_seats := 10,
        status := TravelStatus.ACTIVE, departure_time := 0 } "FL202501011200ZZZZ"
      7).1 rfl).trans (by norm_num)
